import Mathlib

/-!
Shallow embedding of the signature/timestamp detection subsystem of the
`pdf-info` PDF analysis tool (Go sources `signatures.go` and
`timestamp_analysis.go`), together with theorems settling the frozen claims
about it.

File contents are modelled as `List Char` (one entry per byte of the file;
all patterns the code scans for are ASCII).  A file read that may fail is
modelled as `Option (List Char)` (`none` = read error).  The external
pdfcpu document model is modelled by the `PDFObj`/`Context` types below, and
the external signature-validation service by an
`Except String (List SignatureValidationResult)` input.
-/

namespace PdfInfo

/-- Prefix test: `leadsWith hay pat` is true iff `pat` is a prefix of `hay`.
Mirrors the per-position comparison done by Go's `strings` routines. -/
def leadsWith : List Char → List Char → Bool
  | _, [] => true
  | [], _ :: _ => false
  | c :: cs, p :: ps => c == p && leadsWith cs ps

/-- Index of the first occurrence of `pat` in `hay` (Go `strings.Index`;
`none` models the `-1` result). -/
def indexOfSub : List Char → List Char → Option Nat
  | [], pat => if leadsWith [] pat then some 0 else none
  | c :: cs, pat =>
    if leadsWith (c :: cs) pat then some 0
    else (indexOfSub cs pat).map (· + 1)

/-- Substring containment (Go `strings.Contains`). -/
def containsSub (hay pat : List Char) : Bool :=
  (indexOfSub hay pat).isSome

/-- Fuel-indexed helper for `countNonOverlap`; the fuel only serves to make
the recursion structural, `countNonOverlap` always supplies enough. -/
def countNonOverlapFuel : Nat → List Char → List Char → Nat
  | 0, _, _ => 0
  | _ + 1, [], _ => 0
  | fuel + 1, c :: cs, pat =>
    if leadsWith (c :: cs) pat then
      countNonOverlapFuel fuel (cs.drop (pat.length - 1)) pat + 1
    else
      countNonOverlapFuel fuel cs pat

/-- Number of non-overlapping occurrences of `pat` in `hay`, scanning left to
right and skipping past each match (Go `strings.Count` for a non-empty
pattern). -/
def countNonOverlap (hay pat : List Char) : Nat :=
  countNonOverlapFuel hay.length hay pat

/-- Go slice `s[i:j]` on a character list. -/
def subSlice (s : List Char) (i j : Nat) : List Char :=
  (s.take j).drop i

/-- Truncate `s` at the first occurrence of character `c`, as the source does
with `strings.Index` followed by a slice; `s` is unchanged when `c` does not
occur. -/
def truncAt (s : List Char) (c : Char) : List Char :=
  match indexOfSub s [c] with
  | some i => s.take i
  | none => s

/-- The ordered signature-marker pattern list of
`detectSignaturesByteAnalysis` (`signatures.go`). -/
def signaturePatterns : List String :=
  ["/Type/Sig",
   "/FT/Sig",
   "/SigFlags",
   "Adobe.PPKLite",
   "Adobe.PPKMS",
   "PKCS#7",
   "pkcs7",
   "/ByteRange",
   "/Contents<",
   "/SubFilter/adbe.pkcs7.detached",
   "/SubFilter/adbe.pkcs7.sha1",
   "/SubFilter/ETSI.CAdES.detached",
   "/Filter/Adobe.PPKLite",
   "/Filter/Adobe.PPKMS"]

/-- The corroborating (non-authoritative) tail of `signaturePatterns`:
everything after `/Type/Sig` and `/FT/Sig`. -/
def corroboratingPatterns : List String :=
  ["/SigFlags",
   "Adobe.PPKLite",
   "Adobe.PPKMS",
   "PKCS#7",
   "pkcs7",
   "/ByteRange",
   "/Contents<",
   "/SubFilter/adbe.pkcs7.detached",
   "/SubFilter/adbe.pkcs7.sha1",
   "/SubFilter/ETSI.CAdES.detached",
   "/Filter/Adobe.PPKLite",
   "/Filter/Adobe.PPKMS"]

/-- One iteration of the pattern loop of `detectSignaturesByteAnalysis`:
occurrences of the two authoritative patterns are summed into the count,
any other pattern with at least one occurrence sets the count to 1 only if
it is still 0. -/
def signaturePatternStep (content : List Char) (signatureCount : Nat)
    (pattern : String) : Nat :=
  let count := countNonOverlap content pattern.data
  if count > 0 then
    if pattern == "/Type/Sig" || pattern == "/FT/Sig" then
      signatureCount + count
    else if signatureCount == 0 then 1
    else signatureCount
  else signatureCount

/-- The narrower dictionary-open marker list used as a final fallback. -/
def sigDictPatterns : List String :=
  ["/Sig", "<</Type/Sig", "<</FT/Sig"]

/-- The fallback loop of `detectSignaturesByteAnalysis`: the first contained
pattern of `sigDictPatterns` sets the count to 1 (the Go loop breaks at the
first hit). -/
def sigDictFallback (content : List Char) : List String → Nat
  | [] => 0
  | p :: ps =>
    if containsSub content p.data then 1 else sigDictFallback content ps

/-- `detectSignaturesByteAnalysis` from `signatures.go`: raw byte analysis
for signature detection.  A file-read failure is propagated as an error. -/
def detectSignaturesByteAnalysis (file : Option (List Char)) :
    Except Unit (Bool × Nat) :=
  match file with
  | none => .error ()
  | some content =>
    let signatureCount := signaturePatterns.foldl (signaturePatternStep content) 0
    let signatureCount :=
      if signatureCount == 0 then sigDictFallback content sigDictPatterns
      else signatureCount
    .ok (decide (signatureCount > 0), signatureCount)

/-- The value of the `timestampInfo` map built by
`detectTimestampByteAnalysis` (`timestamp_analysis.go`); a missing map key
reads as `""` in Go, so every field defaults to the empty string. -/
structure TimestampInfo where
  type : String := ""
  time : String := ""
  authority : String := ""
deriving DecidableEq, Repr

/-- The ordered timestamp-marker pattern list of
`detectTimestampByteAnalysis`. -/
def timestampPatterns : List String :=
  ["/SubFilter/ETSI.RFC3161",
   "/SubFilter/adbe.pkcs7.detached",
   "/M(D:",
   "/TS",
   "1.2.840.113549.1.9.16.1.4",
   "TimeStampToken",
   "TSATimeStamp",
   "timestampToken",
   "/Type/TSA",
   "Serpro",
   "Assinador Serpro",
   "ICP-Brasil",
   "AC Timestamping",
   "Carimbo",
   "D:20",
   "/ByteRange"]

/-- The scanning loop of `detectTimestampByteAnalysis`: the first pattern of
the list contained in the content is returned, later patterns are never
consulted (the Go loop breaks at the first hit). -/
def firstContained (content : List Char) : List String → Option String
  | [] => none
  | p :: ps =>
    if containsSub content p.data then some p else firstContained content ps

/-- The type-classification chain applied to the matched pattern text inside
the scanning loop of `detectTimestampByteAnalysis`. -/
def timestampTypeOf (pattern : String) : String :=
  if containsSub pattern.data "RFC3161".data then "RFC3161"
  else if containsSub pattern.data "adbe.pkcs7".data then "PKCS#7"
  else if containsSub pattern.data "TSA".data then "TSA"
  else if containsSub pattern.data "Serpro".data
       || containsSub pattern.data "Assinador Serpro".data then "Serpro TSA"
  else if containsSub pattern.data "ICP-Brasil".data then "ICP-Brasil"
  else if containsSub pattern.data "ByteRange".data then "Embedded"
  else "Standard"

/-- The time-marker list searched once a timestamp marker was found. -/
def timePatterns : List String :=
  ["D:202", "D:201"]

/-- Reformatting of the raw candidate slice extracted at a time marker:
`D:YYYYMMDDHHmmSS` becomes `YYYY-MM-DD HH:mm:SS` (second defaults to `00`
when the candidate is shorter than 16 bytes), other candidates fall back to
raw truncation, exactly as in `detectTimestampByteAnalysis`. -/
def formatTimestampStr (timestampStr : List Char) : String :=
  if timestampStr.length ≥ 15 then
    let rawTime := timestampStr
    if leadsWith rawTime "D:".data && rawTime.length ≥ 15 then
      let year := subSlice rawTime 2 6
      let month := subSlice rawTime 6 8
      let day := subSlice rawTime 8 10
      let hour := subSlice rawTime 10 12
      let minute := subSlice rawTime 12 14
      let second := if rawTime.length ≥ 16 then subSlice rawTime 14 16 else "00".data
      String.mk (year ++ "-".data ++ month ++ "-".data ++ day ++ " ".data
        ++ hour ++ ":".data ++ minute ++ ":".data ++ second)
    else String.mk (rawTime.take 15)
  else String.mk timestampStr

/-- The time-extraction loop of `detectTimestampByteAnalysis`: the first
time marker found in the content yields the following (up to) 20 bytes,
reformatted; the loop breaks at the first hit. -/
def extractTimeLoop (content : List Char) : List String → Option String
  | [] => none
  | tp :: tps =>
    match indexOfSub content tp.data with
    | some idx =>
      let endIdx := min (idx + 20) content.length
      some (formatTimestampStr (subSlice content idx endIdx))
    | none => extractTimeLoop content tps

/-- The authority-marker list searched once a timestamp marker was found. -/
def authorityPatterns : List String :=
  ["CN=",
   "O=",
   "TSA",
   "TimeStamp",
   "Serpro",
   "Assinador Serpro",
   "ICP-Brasil",
   "AC Timestamping",
   "Autoridade Certificadora",
   "Certificate Authority"]

/-- The authority-extraction loop of `detectTimestampByteAnalysis`: at the
first authority marker found, take up to 80 bytes, truncate at the first
newline and at the first null byte, then canonicalise known authorities or
truncate free text to 40 characters plus an ellipsis. -/
def extractAuthorityLoop (content : List Char) : List String → Option String
  | [] => none
  | ap :: aps =>
    match indexOfSub content ap.data with
    | some idx =>
      let endIdx := min (idx + 80) content.length
      let authStr := subSlice content idx endIdx
      let authStr := truncAt authStr '\n'
      let authStr := truncAt authStr '\x00'
      some (if containsSub authStr "Serpro".data
            || containsSub authStr "Assinador Serpro".data then
              "Serpro - ServiÃ§o Federal de Processamento de Dados"
            else if containsSub authStr "ICP-Brasil".data then
              "ICP-Brasil Certificate Authority"
            else if authStr.length > 40 then
              String.mk (authStr.take 40) ++ "..."
            else String.mk authStr)
    | none => extractAuthorityLoop content aps

/-- `detectTimestampByteAnalysis` from `timestamp_analysis.go`: raw byte
analysis for timestamp detection.  A file-read failure yields
`(false, {})` (the Go function returns `false` and a nil map). -/
def detectTimestampByteAnalysis (file : Option (List Char)) :
    Bool × TimestampInfo :=
  match file with
  | none => (false, {})
  | some content =>
    match firstContained content timestampPatterns with
    | none => (false, {})
    | some pattern =>
      let timeStr := (extractTimeLoop content timePatterns).getD ""
      let authStr := (extractAuthorityLoop content authorityPatterns).getD ""
      (true,
        { type := timestampTypeOf pattern,
          time := if timeStr == "" then "Unknown" else timeStr,
          authority := if authStr == "" then "Unknown" else authStr })

/-- A pdfcpu object (`types.Object`), restricted to the shapes the signature
code inspects: names, dictionaries, arrays, indirect references, a nil
object, and an opaque constructor for every other kind of object. -/
inductive PDFObj where
  | null : PDFObj
  | name : String → PDFObj
  | dict : List (String × PDFObj) → PDFObj
  | arr : List PDFObj → PDFObj
  | ref : Nat → PDFObj
  | other : PDFObj

/-- A pdfcpu dictionary (`types.Dict`): finitely many key/object pairs. -/
abbrev PDFDict := List (String × PDFObj)

/-- `types.Dict.Entry`: look a key up in a dictionary (`none` = not found). -/
def dictEntry (d : PDFDict) (key : String) : Option PDFObj :=
  (d.find? (fun e => e.1 == key)).map (·.2)

/-- Whether an object is the nil object (the Go code's `!= nil` guards). -/
def isNull : PDFObj → Bool
  | .null => true
  | _ => false

/-- The slice of a pdfcpu `model.Context` the signature code reads: the root
catalog dictionary, the cross-reference table (one optional object per
table entry; `none` models a missing entry or nil object), and the
dereferencing function for indirect references (`none` models a
dereference error).  The table itself is optional (`ctx.XRefTable` may be
nil). -/
structure Context where
  rootDict : Option PDFDict
  xref : Option (List (Option PDFObj))
  deref : Nat → Option PDFObj

/-- `PDFInfo`, restricted to the digital-signature fields the analysed
claims are about; the Go struct zero value gives the defaults. -/
structure DigitalSignatureInfo where
  /-- Go field `Type` (renamed: `Type` is not a valid Lean field name). -/
  sigType : String := ""
  subFilter : String := ""
  signerName : String := ""
  signingTime : String := ""
  location : String := ""
  reason : String := ""
  contactInfo : String := ""
  fieldName : String := ""
  isValid : Bool := false
  isCertified : Bool := false
  status : String := ""
  validationErrors : List String := []
  hasTimestamp : Bool := false
  timestampType : String := ""
  timestampTime : String := ""
  timestampAuthority : String := ""
  timestampStatus : String := ""
deriving DecidableEq, Repr

/-- The analysis result (`PDFInfo` in Go), restricted to its
digital-signature fields; the Go struct zero value gives the defaults. -/
structure PDFInfo where
  hasDigitalSignatures : Bool := false
  signatureCount : Nat := 0
  signatures : List DigitalSignatureInfo := []
deriving DecidableEq, Repr

/-- One result of the external validation service
(`api.ValidateSignatures`), with the fields the adapter copies.  The
`time.Time` signing time is modelled by its formatted rendering, `none`
standing for the zero time. -/
structure SignatureValidationResult where
  fieldName : String := ""
  subFilter : String := ""
  signerName : String := ""
  signingTime : Option String := none
  location : String := ""
  reason : String := ""
  contactInfo : String := ""
  status : Int := 0
  certified : Bool := false
  problems : List String := []
deriving DecidableEq, Repr

/-- `formatTime` from `signatures.go`: the zero time renders as the empty
string, any other time as its `YYYY-MM-DD HH:MM:SS` rendering (which is how
a non-zero `time.Time` is modelled here). -/
def formatTime : Option String → String
  | none => ""
  | some s => s

/-- `processAcroForm` from `signatures.go` (lines 219-223): the body is a
TODO placeholder that ignores its arguments and returns 0, never touching
the analysis result. -/
def processAcroForm (_ctx : Context) (_acroFormObj : PDFObj) (_info : PDFInfo) : Nat :=
  0

/-- Method 1 of `detectSignatureFields`: `signatureFound` is set iff the
root catalog has a non-nil `AcroForm` entry for which `processAcroForm`
returns a positive count. -/
def acroFormFound (ctx : Context) (root : PDFDict) (info : PDFInfo) : Bool :=
  match dictEntry root "AcroForm" with
  | some acroFormObj =>
    if isNull acroFormObj then false
    else decide (processAcroForm ctx acroFormObj info > 0)
  | none => false

/-- The contribution of one cross-reference table object to Method 2 of
`detectSignatureFields`: the three checks (`Type` = `Sig`, `FT` = `Sig`,
and a `V` indirect reference whose target dictionary carries a recognised
`Filter`) are independent and each increments the count. -/
def xrefEntrySigCount (ctx : Context) : PDFObj → Nat
  | .dict d =>
    (match dictEntry d "Type" with
     | some (.name n) => if n == "Sig" then 1 else 0
     | _ => 0)
    + (match dictEntry d "FT" with
       | some (.name n) => if n == "Sig" then 1 else 0
       | _ => 0)
    + (match dictEntry d "V" with
       | some (.ref r) =>
         (match ctx.deref r with
          | some (.dict sigDict) =>
            (match dictEntry sigDict "Filter" with
             | some (.name filter) =>
               if filter == "Adobe.PPKLite" || filter == "Adobe.PPKMS"
                  || containsSub filter.data "PKCS".data then 1 else 0
             | _ => 0)
          | _ => 0)
       | _ => 0)
  | _ => 0

/-- Method 2 of `detectSignatureFields`: sum the contributions of every
cross-reference table entry (0 when the table is nil). -/
def xrefSigCount (ctx : Context) : Nat :=
  match ctx.xref with
  | none => 0
  | some entries =>
    entries.foldl
      (fun acc e =>
        match e with
        | some obj => acc + xrefEntrySigCount ctx obj
        | none => acc)
      0

/-- `hasSignatureIndicators` from `signatures.go`: true iff the root
catalog's `AcroForm` (resolved through a direct dictionary or an indirect
reference) carries a non-nil `SigFlags` entry. -/
def hasSignatureIndicators (ctx : Context) : Bool :=
  match ctx.rootDict with
  | some root =>
    match dictEntry root "AcroForm" with
    | some acroFormObj =>
      if isNull acroFormObj then false
      else
        match acroFormObj with
        | .ref r =>
          (match ctx.deref r with
           | some (.dict d) =>
             (match dictEntry d "SigFlags" with
              | some sigFlagsObj => !isNull sigFlagsObj
              | none => false)
           | _ => false)
        | .dict d =>
          (match dictEntry d "SigFlags" with
           | some sigFlagsObj => !isNull sigFlagsObj
           | none => false)
        | _ => false
    | none => false
  | none => false

/-- The local `signatureCount` of `detectSignatureFields` after Methods 1-3:
the cross-reference count, replaced by the `SigFlags` fallback estimate
(0 or 1) when both Method 1 and Method 2 found nothing. -/
def structuralEstimate (ctx : Context) (root : PDFDict) (info : PDFInfo) : Nat :=
  let signatureFound := acroFormFound ctx root info
  let signatureCount := xrefSigCount ctx
  if !signatureFound && signatureCount == 0 then
    if hasSignatureIndicators ctx then 1 else 0
  else signatureCount

/-- `detectSignatureFields` from `signatures.go`: structural signature-field
detection.  Returns the `bool` result together with the updated analysis
result; the shared signature count is overwritten only when the new
estimate strictly exceeds it. -/
def detectSignatureFields (ctx : Option Context) (info : PDFInfo) :
    Bool × PDFInfo :=
  match ctx with
  | none => (false, info)
  | some c =>
    match c.rootDict with
    | none => (false, info)
    | some root =>
      let signatureFound := acroFormFound c root info
      let signatureCount := structuralEstimate c root info
      if signatureCount > 0 || signatureFound then
        (true,
          { info with
            hasDigitalSignatures := true,
            signatureCount :=
              if signatureCount > info.signatureCount then signatureCount
              else info.signatureCount })
      else (false, info)

/-- `analyzeTimestamp` from `timestamp_analysis.go`: always first reset the
record's timestamp fields to the absent state, then copy the byte-scan
results in verbatim when a timestamp was detected. -/
def analyzeTimestamp (file : Option (List Char))
    (sigInfo : DigitalSignatureInfo) : DigitalSignatureInfo :=
  let sigInfo :=
    { sigInfo with
      hasTimestamp := false,
      timestampType := "",
      timestampTime := "",
      timestampAuthority := "",
      timestampStatus := "None" }
  match detectTimestampByteAnalysis file with
  | (true, timestampInfo) =>
    { sigInfo with
      hasTimestamp := true,
      timestampType := timestampInfo.type,
      timestampTime := timestampInfo.time,
      timestampAuthority := timestampInfo.authority,
      timestampStatus := "Present" }
  | (false, _) => sigInfo

/-- The per-result body of the loop at the end of
`analyzeDigitalSignatures`: map one validation result to a
`DigitalSignatureInfo` and run `analyzeTimestamp` on it. -/
def buildSignatureInfo (file : Option (List Char))
    (result : SignatureValidationResult) : DigitalSignatureInfo :=
  let sigInfo : DigitalSignatureInfo :=
    { fieldName := result.fieldName
      subFilter := result.subFilter
      signerName := result.signerName
      signingTime := formatTime result.signingTime
      location := result.location
      reason := result.reason
      contactInfo := result.contactInfo
      isCertified := result.certified
      isValid := result.status == 1
      status :=
        if result.status == 1 then "Valid"
        else if result.status == 2 then "Invalid"
        else "Unknown"
      validationErrors :=
        if result.problems.length > 0 then result.problems else []
      sigType := if result.certified then "Certified" else "Approval" }
  analyzeTimestamp file sigInfo

/-- The first half of `analyzeDigitalSignatures` (`signatures.go` lines
16-30): structural detection, then, only if it found nothing, the raw byte
analysis (whose read errors are swallowed).  Returns the
`hasSignatureFields` flag and the updated analysis result. -/
def detectStage (file : Option (List Char)) (ctx : Option Context)
    (info : PDFInfo) : Bool × PDFInfo :=
  let r := detectSignatureFields ctx info
  let hasSignatureFields := r.1
  let info := r.2
  if !hasSignatureFields then
    match detectSignaturesByteAnalysis file with
    | .error _ => (hasSignatureFields, info)
    | .ok (hasRawSignatures, rawCount) =>
      if hasRawSignatures then
        (true,
          { info with hasDigitalSignatures := true, signatureCount := rawCount })
      else (hasSignatureFields, info)
  else (hasSignatureFields, info)

/-- `analyzeDigitalSignatures` from `signatures.go`: structural detection
and byte-scan fallback (`detectStage`), then the validation attempt.  A
validation error or an empty result list keeps the coarse stage verdict
when the stages found fields and otherwise reports no signatures; a
non-empty result list is authoritative and builds the full record list. -/
def analyzeDigitalSignatures (file : Option (List Char)) (ctx : Option Context)
    (validation : Except String (List SignatureValidationResult))
    (info : PDFInfo) : PDFInfo :=
  let r := detectStage file ctx info
  let hasSignatureFields := r.1
  let info := r.2
  match validation with
  | .error _ =>
    if hasSignatureFields then { info with hasDigitalSignatures := true }
    else { info with hasDigitalSignatures := false, signatureCount := 0 }
  | .ok results =>
    if results.length == 0 then
      if hasSignatureFields then { info with hasDigitalSignatures := true }
      else { info with hasDigitalSignatures := false, signatureCount := 0 }
    else
      { info with
        hasDigitalSignatures := true,
        signatureCount := results.length,
        signatures := results.map (buildSignatureInfo file) }

/-- The timestamp type classification as the specification words it: the
matched pattern text is tested, in order, for the substrings `RFC3161`,
`adbe.pkcs7`, `TSA`, `Serpro`, `ICP-Brasil`, `ByteRange`, with `Standard`
as the final fallback.  (The source additionally tests for
`Assinador Serpro`, which is subsumed by the `Serpro` test.) -/
def timestampTypeSpec (pattern : String) : String :=
  if containsSub pattern.data "RFC3161".data then "RFC3161"
  else if containsSub pattern.data "adbe.pkcs7".data then "PKCS#7"
  else if containsSub pattern.data "TSA".data then "TSA"
  else if containsSub pattern.data "Serpro".data then "Serpro TSA"
  else if containsSub pattern.data "ICP-Brasil".data then "ICP-Brasil"
  else if containsSub pattern.data "ByteRange".data then "Embedded"
  else "Standard"

/-! ## Helper lemmas -/

theorem acroFormFound_eq_false (ctx : Context) (root : PDFDict) (info : PDFInfo) :
    acroFormFound ctx root info = false := by
  unfold acroFormFound processAcroForm
  cases dictEntry root "AcroForm" with
  | none => rfl
  | some a => simp

theorem detectSignatureFields_cases (ctx : Option Context) (info : PDFInfo) :
    detectSignatureFields ctx info = (false, info) ∨
    ∃ c root, ctx = some c ∧ c.rootDict = some root ∧
      0 < structuralEstimate c root info ∧
      detectSignatureFields ctx info =
        (true,
          { info with
            hasDigitalSignatures := true,
            signatureCount :=
              if structuralEstimate c root info > info.signatureCount then
                structuralEstimate c root info
              else info.signatureCount }) := by
  cases ctx with
  | none => exact Or.inl rfl
  | some c =>
    cases hr : c.rootDict with
    | none =>
      left
      simp [detectSignatureFields, hr]
    | some root =>
      by_cases hpos : 0 < structuralEstimate c root info
      · right
        refine ⟨c, root, rfl, hr, hpos, ?_⟩
        simp [detectSignatureFields, hr, acroFormFound_eq_false, hpos]
      · left
        simp [detectSignatureFields, hr, acroFormFound_eq_false,
          Nat.eq_zero_of_not_pos hpos]

theorem detectSignatureFields_false_eq (ctx : Option Context) (info : PDFInfo)
    (h : (detectSignatureFields ctx info).1 = false) :
    (detectSignatureFields ctx info).2 = info := by
  rcases detectSignatureFields_cases ctx info with heq | ⟨c, root, _, _, _, heq⟩
  · rw [heq]
  · rw [heq] at h
    simp at h

theorem detectSignatureFields_true_count (ctx : Option Context) (info : PDFInfo)
    (h : (detectSignatureFields ctx info).1 = true) :
    1 ≤ (detectSignatureFields ctx info).2.signatureCount := by
  rcases detectSignatureFields_cases ctx info with heq | ⟨c, root, _, _, hpos, heq⟩
  · rw [heq] at h
    simp at h
  · rw [heq]
    simp only
    split
    · exact hpos
    · omega

theorem detectSignatureFields_count_mono (ctx : Option Context) (info : PDFInfo) :
    info.signatureCount ≤ (detectSignatureFields ctx info).2.signatureCount := by
  rcases detectSignatureFields_cases ctx info with heq | ⟨c, root, _, _, _, heq⟩
  · rw [heq]
  · rw [heq]
    simp only
    split <;> omega

theorem detectSignatureFields_signatures_eq (ctx : Option Context) (info : PDFInfo) :
    (detectSignatureFields ctx info).2.signatures = info.signatures := by
  rcases detectSignatureFields_cases ctx info with heq | ⟨c, root, _, _, _, heq⟩
  · rw [heq]
  · rw [heq]

theorem detectSignaturesByteAnalysis_ok (file : Option (List Char)) (b : Bool)
    (n : Nat) (h : detectSignaturesByteAnalysis file = .ok (b, n)) :
    b = decide (0 < n) := by
  cases file with
  | none => simp [detectSignaturesByteAnalysis] at h
  | some content =>
    simp only [detectSignaturesByteAnalysis, Except.ok.injEq, Prod.mk.injEq] at h
    obtain ⟨hb, hn⟩ := h
    subst hn
    rw [← hb]

theorem detectStage_cases (file : Option (List Char)) (ctx : Option Context)
    (info : PDFInfo) :
    ((detectSignatureFields ctx info).1 = true ∧
      detectStage file ctx info = (true, (detectSignatureFields ctx info).2)) ∨
    (∃ n, 0 < n ∧
      detectStage file ctx info =
        (true, { info with hasDigitalSignatures := true, signatureCount := n })) ∨
    detectStage file ctx info = (false, info) := by
  unfold detectStage
  cases hb : (detectSignatureFields ctx info).1 with
  | true =>
    left
    exact ⟨rfl, by simp [hb]⟩
  | false =>
    have hinfo := detectSignatureFields_false_eq ctx info hb
    cases hba : detectSignaturesByteAnalysis file with
    | error e =>
      right; right
      simp [hb, hba, hinfo]
    | ok p =>
      rcases p with ⟨hraw, n⟩
      have hbn := detectSignaturesByteAnalysis_ok file hraw n hba
      cases hraw with
      | false =>
        right; right
        simp [hb, hba, hinfo]
      | true =>
        right; left
        refine ⟨n, ?_, ?_⟩
        · simpa using hbn.symm
        · simp [hb, hba, hinfo]

theorem detectStage_true_count (file : Option (List Char)) (ctx : Option Context)
    (info : PDFInfo) (h : (detectStage file ctx info).1 = true) :
    1 ≤ (detectStage file ctx info).2.signatureCount := by
  rcases detectStage_cases file ctx info with ⟨hb, heq⟩ | ⟨n, hn, heq⟩ | heq
  · rw [heq]
    exact detectSignatureFields_true_count ctx info hb
  · rw [heq]
    exact hn
  · rw [heq] at h
    simp at h

theorem detectStage_false_eq (file : Option (List Char)) (ctx : Option Context)
    (info : PDFInfo) (h : (detectStage file ctx info).1 = false) :
    (detectStage file ctx info).2 = info := by
  rcases detectStage_cases file ctx info with ⟨hb, heq⟩ | ⟨n, hn, heq⟩ | heq
  · rw [heq] at h
    simp at h
  · rw [heq] at h
    simp at h
  · rw [heq]

theorem detectStage_signatures_eq (file : Option (List Char))
    (ctx : Option Context) (info : PDFInfo) :
    (detectStage file ctx info).2.signatures = info.signatures := by
  rcases detectStage_cases file ctx info with ⟨hb, heq⟩ | ⟨n, hn, heq⟩ | heq
  · rw [heq]
    exact detectSignatureFields_signatures_eq ctx info
  · rw [heq]
  · rw [heq]

/-! ## Claim C1 -/

/-- C1: for every input file, every document-model outcome, every
validation outcome and every prior analysis state, the analysis result
returned by `analyzeDigitalSignatures` satisfies
`hasDigitalSignatures = (signatureCount > 0)`. -/
theorem C1_hasDigitalSignatures_iff_count_pos (file : Option (List Char))
    (ctx : Option Context)
    (validation : Except String (List SignatureValidationResult))
    (info : PDFInfo) :
    (analyzeDigitalSignatures file ctx validation info).hasDigitalSignatures =
      decide (0 < (analyzeDigitalSignatures file ctx validation info).signatureCount) := by
  unfold analyzeDigitalSignatures
  cases hs : (detectStage file ctx info).1 with
  | true =>
    have hcount := detectStage_true_count file ctx info hs
    cases validation with
    | error e =>
      simp only [hs, if_true]
      simpa using hcount
    | ok results =>
      cases results with
      | nil =>
        simp only [hs, List.length_nil, if_true]
        simpa using hcount
      | cons r rs =>
        simp [hs]
  | false =>
    cases validation with
    | error e => simp [hs]
    | ok results =>
      cases results with
      | nil => simp [hs]
      | cons r rs => simp [hs]

/-! ## Claim C2 -/

/-- C2: whenever the validation service succeeds with at least one result,
the final analysis has `hasDigitalSignatures = true`, a signature count
equal to the number of results, and one `SignatureRecord` per validation
result, regardless of what the earlier stages found. -/
theorem C2_validation_authoritative (file : Option (List Char))
    (ctx : Option Context) (results : List SignatureValidationResult)
    (info : PDFInfo) (h : results ≠ []) :
    (analyzeDigitalSignatures file ctx (.ok results) info).hasDigitalSignatures = true ∧
    (analyzeDigitalSignatures file ctx (.ok results) info).signatureCount = results.length ∧
    (analyzeDigitalSignatures file ctx (.ok results) info).signatures =
      results.map (buildSignatureInfo file) := by
  unfold analyzeDigitalSignatures
  cases results with
  | nil => simp at h
  | cons r rs => simp

/-- Witness for C2 at a concrete input: a single default validation result
yields a count of 1. -/
theorem C2_witness :
    (analyzeDigitalSignatures none none (.ok [{}]) {}).signatureCount = 1 :=
  (C2_validation_authoritative none none [{}] {} (by simp)).2.1

/-! ## Claim C3 -/

/-- C3: when validation errors or returns no results, the engine keeps the
coarse stage verdict — `hasDigitalSignatures = true`, the stage's count
(at least 1), and an empty detail list — whenever the structural locator or
byte scan found evidence, and reports no signatures exactly when no stage
found evidence. -/
theorem C3_fallback_keeps_coarse_verdict (file : Option (List Char))
    (ctx : Option Context)
    (validation : Except String (List SignatureValidationResult))
    (info : PDFInfo)
    (hv : (∃ e, validation = Except.error e) ∨ validation = Except.ok [])
    (hempty : info.signatures = []) :
    ((detectStage file ctx info).1 = true →
      (analyzeDigitalSignatures file ctx validation info).hasDigitalSignatures = true ∧
      1 ≤ (analyzeDigitalSignatures file ctx validation info).signatureCount ∧
      (analyzeDigitalSignatures file ctx validation info).signatureCount =
        (detectStage file ctx info).2.signatureCount ∧
      (analyzeDigitalSignatures file ctx validation info).signatures = []) ∧
    ((detectStage file ctx info).1 = false →
      (analyzeDigitalSignatures file ctx validation info).hasDigitalSignatures = false ∧
      (analyzeDigitalSignatures file ctx validation info).signatureCount = 0) := by
  have hsig := detectStage_signatures_eq file ctx info
  constructor
  · intro hfired
    have hcount := detectStage_true_count file ctx info hfired
    rcases hv with ⟨e, he⟩ | he <;> subst he <;>
      simp [analyzeDigitalSignatures, hfired, hsig, hempty, hcount]
  · intro hfired
    rcases hv with ⟨e, he⟩ | he <;> subst he <;>
      simp [analyzeDigitalSignatures, hfired]

/-- Witness for C3 at a concrete input: a file whose bytes contain `/Sig`,
no usable document model, and a failing validation call still reports one
signature with an empty detail list. -/
theorem C3_witness :
    (analyzeDigitalSignatures (some ("/Sig".data)) none (Except.error "e") {}).hasDigitalSignatures = true ∧
    1 ≤ (analyzeDigitalSignatures (some ("/Sig".data)) none (Except.error "e") {}).signatureCount ∧
    (analyzeDigitalSignatures (some ("/Sig".data)) none (Except.error "e") {}).signatureCount =
      (detectStage (some ("/Sig".data)) none {}).2.signatureCount ∧
    (analyzeDigitalSignatures (some ("/Sig".data)) none (Except.error "e") {}).signatures = [] :=
  (C3_fallback_keeps_coarse_verdict (some ("/Sig".data)) none (Except.error "e") {}
    (Or.inl ⟨"e", rfl⟩) rfl).1 (by decide)

/-! ## Claim C4 -/

theorem signaturePatterns_eq :
    signaturePatterns = "/Type/Sig" :: "/FT/Sig" :: corroboratingPatterns := rfl

theorem signaturePatternStep_auth (content : List Char) (acc : Nat) (p : String)
    (hp : (p == "/Type/Sig" || p == "/FT/Sig") = true) :
    signaturePatternStep content acc p = acc + countNonOverlap content p.data := by
  unfold signaturePatternStep
  by_cases hc : 0 < countNonOverlap content p.data
  · simp [hp, hc]
  · simp [hp, Nat.eq_zero_of_not_pos hc]

theorem signaturePatternStep_nonauth (content : List Char) (acc : Nat) (p : String)
    (hp : (p == "/Type/Sig" || p == "/FT/Sig") = false) :
    signaturePatternStep content acc p =
      if 0 < countNonOverlap content p.data then
        (if acc = 0 then 1 else acc)
      else acc := by
  unfold signaturePatternStep
  by_cases hc : 0 < countNonOverlap content p.data
  · by_cases hacc : acc = 0
    · simp [hp, hc, hacc]
    · simp [hp, hc, hacc]
  · simp [hc]

theorem foldl_nonauth_pos (content : List Char) (ps : List String)
    (hps : ∀ p ∈ ps, (p == "/Type/Sig" || p == "/FT/Sig") = false)
    (acc : Nat) (hacc : 0 < acc) :
    ps.foldl (signaturePatternStep content) acc = acc := by
  induction ps with
  | nil => rfl
  | cons p ps ih =>
    have hp := hps p (List.mem_cons_self p ps)
    have hne : ¬ acc = 0 := Nat.pos_iff_ne_zero.mp hacc
    have hstep : signaturePatternStep content acc p = acc := by
      rw [signaturePatternStep_nonauth content acc p hp]
      by_cases hc : 0 < countNonOverlap content p.data
      · rw [if_pos hc, if_neg hne]
      · rw [if_neg hc]
    rw [List.foldl_cons, hstep]
    exact ih (fun q hq => hps q (List.mem_cons_of_mem p hq))

theorem foldl_nonauth_zero (content : List Char) (ps : List String)
    (hps : ∀ p ∈ ps, (p == "/Type/Sig" || p == "/FT/Sig") = false) :
    ps.foldl (signaturePatternStep content) 0 =
      if ps.any (fun p => decide (0 < countNonOverlap content p.data)) then 1
      else 0 := by
  induction ps with
  | nil => rfl
  | cons p ps ih =>
    have hp := hps p (List.mem_cons_self p ps)
    have hrest : ∀ q ∈ ps, (q == "/Type/Sig" || q == "/FT/Sig") = false :=
      fun q hq => hps q (List.mem_cons_of_mem p hq)
    have hstep : signaturePatternStep content 0 p =
        if 0 < countNonOverlap content p.data then 1 else 0 := by
      rw [signaturePatternStep_nonauth content 0 p hp]
      by_cases hc : 0 < countNonOverlap content p.data
      · rw [if_pos hc, if_pos rfl, if_pos hc]
      · rw [if_neg hc, if_neg hc]
    rw [List.foldl_cons, hstep]
    by_cases hc : 0 < countNonOverlap content p.data
    · rw [if_pos hc, foldl_nonauth_pos content ps hrest 1 Nat.one_pos]
      simp [List.any_cons, hc]
    · rw [if_neg hc, ih hrest]
      simp [List.any_cons, hc]

theorem sigDictFallback_eq (content : List Char) (ps : List String) :
    sigDictFallback content ps =
      if ps.any (fun p => containsSub content p.data) then 1 else 0 := by
  induction ps with
  | nil => rfl
  | cons p ps ih =>
    unfold sigDictFallback
    by_cases hc : containsSub content p.data
    · simp [hc]
    · simp [hc, ih]

theorem byteScanFold_eq (content : List Char) :
    signaturePatterns.foldl (signaturePatternStep content) 0 =
      (if 0 < countNonOverlap content "/Type/Sig".data
           + countNonOverlap content "/FT/Sig".data then
        countNonOverlap content "/Type/Sig".data
          + countNonOverlap content "/FT/Sig".data
      else if corroboratingPatterns.any
          (fun p => decide (0 < countNonOverlap content p.data)) then 1
      else 0) := by
  have hcorr : ∀ p ∈ corroboratingPatterns,
      (p == "/Type/Sig" || p == "/FT/Sig") = false := by decide
  rw [signaturePatterns_eq]
  simp only [List.foldl_cons]
  rw [signaturePatternStep_auth content 0 "/Type/Sig" (by decide),
    signaturePatternStep_auth content _ "/FT/Sig" (by decide)]
  simp only [Nat.zero_add]
  by_cases hauth : 0 < countNonOverlap content "/Type/Sig".data
      + countNonOverlap content "/FT/Sig".data
  · rw [foldl_nonauth_pos content corroboratingPatterns hcorr _ hauth]
    simp [hauth]
  · have h0 : countNonOverlap content "/Type/Sig".data
        + countNonOverlap content "/FT/Sig".data = 0 :=
      Nat.eq_zero_of_not_pos hauth
    rw [h0, foldl_nonauth_zero content corroboratingPatterns hcorr]
    simp [hauth]

/-- C4: the byte-pattern scan counts the non-overlapping occurrences of the
two authoritative patterns; when their sum is 0 any corroborating pattern
hit sets the count to exactly 1; when still 0 the narrow dictionary-marker
fallback sets it to 1; the boolean result is `count > 0`; and the
scenario - a file with `/Type/Sig` twice and `/FT/Sig` once, byte scan the
only successful method - yields a final signature count of 3. -/
theorem C4_byte_scan_counting (content : List Char) :
    (0 < countNonOverlap content "/Type/Sig".data
        + countNonOverlap content "/FT/Sig".data →
      detectSignaturesByteAnalysis (some content) =
        .ok (true, countNonOverlap content "/Type/Sig".data
          + countNonOverlap content "/FT/Sig".data)) ∧
    (countNonOverlap content "/Type/Sig".data
        + countNonOverlap content "/FT/Sig".data = 0 →
      corroboratingPatterns.any
          (fun p => decide (0 < countNonOverlap content p.data)) = true →
      detectSignaturesByteAnalysis (some content) = .ok (true, 1)) ∧
    (countNonOverlap content "/Type/Sig".data
        + countNonOverlap content "/FT/Sig".data = 0 →
      corroboratingPatterns.any
          (fun p => decide (0 < countNonOverlap content p.data)) = false →
      sigDictPatterns.any (fun p => containsSub content p.data) = true →
      detectSignaturesByteAnalysis (some content) = .ok (true, 1)) ∧
    (countNonOverlap content "/Type/Sig".data
        + countNonOverlap content "/FT/Sig".data = 0 →
      corroboratingPatterns.any
          (fun p => decide (0 < countNonOverlap content p.data)) = false →
      sigDictPatterns.any (fun p => containsSub content p.data) = false →
      detectSignaturesByteAnalysis (some content) = .ok (false, 0)) ∧
    (∀ b n, detectSignaturesByteAnalysis (some content) = .ok (b, n) →
      b = decide (0 < n)) ∧
    ((analyzeDigitalSignatures
        (some ("x/Type/Sig y /Type/Sig z /FT/Sig".data)) none
        (.error "error") {}).signatureCount = 3 ∧
     (analyzeDigitalSignatures
        (some ("x/Type/Sig y /Type/Sig z /FT/Sig".data)) none
        (.error "error") {}).hasDigitalSignatures = true) := by
  refine ⟨?_, ?_, ?_, ?_, fun b n h => detectSignaturesByteAnalysis_ok _ b n h,
    by decide, by decide⟩
  · intro hauth
    simp only [detectSignaturesByteAnalysis]
    rw [byteScanFold_eq content]
    simp only [hauth, if_true]
    have hne : ¬ (countNonOverlap content "/Type/Sig".data
        + countNonOverlap content "/FT/Sig".data = 0) :=
      Nat.pos_iff_ne_zero.mp hauth
    simp [hne, hauth]
  · intro hauth hcorr
    simp only [detectSignaturesByteAnalysis]
    rw [byteScanFold_eq content]
    simp [hauth, hcorr]
  · intro hauth hcorr hfall
    simp only [detectSignaturesByteAnalysis]
    rw [byteScanFold_eq content, sigDictFallback_eq content sigDictPatterns]
    simp [hauth, hcorr, hfall]
  · intro hauth hcorr hfall
    simp only [detectSignaturesByteAnalysis]
    rw [byteScanFold_eq content, sigDictFallback_eq content sigDictPatterns]
    simp [hauth, hcorr, hfall]

/-- Witness for C4 at a concrete input: the scenario file contains
`/Type/Sig` twice and `/FT/Sig` once, and the scan reports `(true, 3)`. -/
theorem C4_witness :
    detectSignaturesByteAnalysis
        (some ("x/Type/Sig y /Type/Sig z /FT/Sig".data)) = .ok (true, 3) :=
  (C4_byte_scan_counting ("x/Type/Sig y /Type/Sig z /FT/Sig".data)).1 (by decide)

/-! ## Claim C5 -/

/-- C5 (code-bug evidence): `processAcroForm` in `signatures.go` is a TODO
placeholder that returns 0 for every input, so the structural locator's
first strategy never contributes a count.  In particular, on a context
whose root catalog has an AcroForm with a Fields array holding one field
with `FT = Sig` (which the claim classifies as one signature field), the
strategy contributes nothing and the whole structural detection reports no
signatures. -/
theorem C5_processAcroForm_placeholder :
    (∀ (ctx : Context) (acroFormObj : PDFObj) (info : PDFInfo),
      processAcroForm ctx acroFormObj info = 0) ∧
    detectSignatureFields
        (some
          { rootDict := some
              [("AcroForm", PDFObj.dict
                [("Fields", PDFObj.arr [PDFObj.dict [("FT", PDFObj.name "Sig")]])])],
            xref := some [],
            deref := fun _ => none })
        {} = (false, {}) :=
  ⟨fun _ _ _ => rfl, rfl⟩

/-! ## Claim C6 -/

theorem firstContained_mem (content : List Char) (ps : List String) (p : String)
    (h : firstContained content ps = some p) : p ∈ ps := by
  induction ps with
  | nil => simp [firstContained] at h
  | cons q qs ih =>
    unfold firstContained at h
    cases hc : containsSub content q.data
    · rw [hc] at h
      simp only [Bool.false_eq_true, if_false] at h
      exact List.mem_cons_of_mem q (ih h)
    · rw [hc] at h
      simp only [if_true] at h
      injection h with h
      subst h
      exact List.mem_cons_self q qs

theorem timestampTypeOf_eq_spec :
    ∀ p ∈ timestampPatterns, timestampTypeOf p = timestampTypeSpec p := by
  decide

/-- C6: in the timestamp byte scan, the first pattern of the fixed-priority
list contained in the file bytes determines both the presence verdict and
the type label via the claimed substring-test chain, later patterns never
being consulted; in particular a file containing only `/ByteRange` yields
`present = true`, type `Embedded`, time `Unknown`, authority `Unknown`. -/
theorem C6_timestamp_first_pattern_priority (content : List Char) :
    ((detectTimestampByteAnalysis (some content)).1 =
      (firstContained content timestampPatterns).isSome) ∧
    (∀ p, firstContained content timestampPatterns = some p →
      (detectTimestampByteAnalysis (some content)).2.type = timestampTypeSpec p) ∧
    detectTimestampByteAnalysis (some ("/ByteRange".data)) =
      (true, { type := "Embedded", time := "Unknown", authority := "Unknown" }) := by
  refine ⟨?_, ?_, by decide⟩
  · simp only [detectTimestampByteAnalysis]
    cases hf : firstContained content timestampPatterns <;> simp [hf]
  · intro p hp
    have hmem := firstContained_mem content timestampPatterns p hp
    simp only [detectTimestampByteAnalysis, hp]
    exact timestampTypeOf_eq_spec p hmem

/-- Witness for C6 at a concrete input: on a file containing only
`/ByteRange`, the matched pattern is `/ByteRange` and the type label is the
one the specification's chain assigns to it, `Embedded`. -/
theorem C6_witness :
    (detectTimestampByteAnalysis (some ("/ByteRange".data))).2.type =
      timestampTypeSpec "/ByteRange" :=
  (C6_timestamp_first_pattern_priority ("/ByteRange".data)).2.1 "/ByteRange"
    (by decide)

/-! ## Claim C7 -/

/-- C7: for a file carrying a `Serpro` marker and a `D:20250606155827`
timestamp, an authoritatively-validated certifying signature produces a
record with type `Certified`, timestamp type `Serpro TSA`, and timestamp
time `2025-06-06 15:58:27`. -/
theorem C7_certified_serpro_scenario (r : SignatureValidationResult)
    (info : PDFInfo) (hcert : r.certified = true) :
    ∃ s, (analyzeDigitalSignatures (some ("Serpro D:20250606155827".data)) none
        (.ok [r]) info).signatures = [s] ∧
      s.sigType = "Certified" ∧ s.timestampType = "Serpro TSA" ∧
      s.timestampTime = "2025-06-06 15:58:27" := by
  have hdet : detectTimestampByteAnalysis (some ("Serpro D:20250606155827".data)) =
      (true,
        { type := "Serpro TSA", time := "2025-06-06 15:58:27",
          authority := "Serpro - ServiÃ§o Federal de Processamento de Dados" }) := by
    decide
  refine ⟨buildSignatureInfo (some ("Serpro D:20250606155827".data)) r,
    ?_, ?_, ?_, ?_⟩
  · simp [analyzeDigitalSignatures]
  · simp [buildSignatureInfo, analyzeTimestamp, hdet, hcert]
  · simp [buildSignatureInfo, analyzeTimestamp, hdet]
  · simp [buildSignatureInfo, analyzeTimestamp, hdet]

/-- Witness for C7 at a concrete input: a single certified validation
result. -/
theorem C7_witness :
    ∃ s, (analyzeDigitalSignatures (some ("Serpro D:20250606155827".data)) none
        (.ok [{ certified := true }]) {}).signatures = [s] ∧
      s.sigType = "Certified" ∧ s.timestampType = "Serpro TSA" ∧
      s.timestampTime = "2025-06-06 15:58:27" :=
  C7_certified_serpro_scenario { certified := true } {} rfl


/-! ## Claim C8 -/

/-- C8: across a call of the structural locator the recorded signature
count never decreases, and it changes only when the locator's new estimate
strictly exceeds the previously recorded value, in which case it becomes
that estimate. -/
theorem C8_structural_count_monotonic (ctx : Option Context) (info : PDFInfo) :
    info.signatureCount ≤ (detectSignatureFields ctx info).2.signatureCount ∧
    ((detectSignatureFields ctx info).2.signatureCount = info.signatureCount ∨
      ∃ c root, ctx = some c ∧ c.rootDict = some root ∧
        (detectSignatureFields ctx info).1 = true ∧
        info.signatureCount < structuralEstimate c root info ∧
        (detectSignatureFields ctx info).2.signatureCount =
          structuralEstimate c root info) := by
  refine ⟨detectSignatureFields_count_mono ctx info, ?_⟩
  rcases detectSignatureFields_cases ctx info with heq | ⟨c, root, hc, hroot, hpos, heq⟩
  · left
    rw [heq]
  · by_cases hgt : structuralEstimate c root info > info.signatureCount
    · right
      refine ⟨c, root, hc, hroot, ?_, hgt, ?_⟩
      · rw [heq]
      · rw [heq]
        simp only
        rw [if_pos hgt]
    · left
      rw [heq]
      simp only
      rw [if_neg hgt]

/-! ## Claim C9 -/

theorem timestampTypeOf_ne_empty (p : String) : timestampTypeOf p ≠ "" := by
  unfold timestampTypeOf
  split_ifs <;> decide

theorem detectTimestampByteAnalysis_type_ne_empty (file : Option (List Char))
    (h : (detectTimestampByteAnalysis file).1 = true) :
    (detectTimestampByteAnalysis file).2.type ≠ "" := by
  cases file with
  | none => simp [detectTimestampByteAnalysis] at h
  | some content =>
    simp only [detectTimestampByteAnalysis] at h ⊢
    cases hf : firstContained content timestampPatterns with
    | none =>
      rw [hf] at h
      simp at h
    | some p =>
      exact timestampTypeOf_ne_empty p

theorem analyzeTimestamp_eq (file : Option (List Char))
    (sigInfo : DigitalSignatureInfo) :
    analyzeTimestamp file sigInfo =
      if (detectTimestampByteAnalysis file).1 then
        { sigInfo with
          hasTimestamp := true,
          timestampType := (detectTimestampByteAnalysis file).2.type,
          timestampTime := (detectTimestampByteAnalysis file).2.time,
          timestampAuthority := (detectTimestampByteAnalysis file).2.authority,
          timestampStatus := "Present" }
      else
        { sigInfo with
          hasTimestamp := false,
          timestampType := "",
          timestampTime := "",
          timestampAuthority := "",
          timestampStatus := "None" } := by
  unfold analyzeTimestamp
  rcases hd : detectTimestampByteAnalysis file with ⟨b, ti⟩
  cases b <;> simp [hd]

/-- C9: after the timestamp analyzer runs on a record, absence of a
timestamp means empty type, time and authority and status `None`, and
presence means a non-empty type and status `Present` — for every file-read
outcome and every prior record state. -/
theorem C9_timestamp_record_invariant (file : Option (List Char))
    (sigInfo : DigitalSignatureInfo) :
    ((analyzeTimestamp file sigInfo).hasTimestamp = false →
      (analyzeTimestamp file sigInfo).timestampType = "" ∧
      (analyzeTimestamp file sigInfo).timestampTime = "" ∧
      (analyzeTimestamp file sigInfo).timestampAuthority = "" ∧
      (analyzeTimestamp file sigInfo).timestampStatus = "None") ∧
    ((analyzeTimestamp file sigInfo).hasTimestamp = true →
      (analyzeTimestamp file sigInfo).timestampType ≠ "" ∧
      (analyzeTimestamp file sigInfo).timestampStatus = "Present") := by
  have htype := detectTimestampByteAnalysis_type_ne_empty file
  rw [analyzeTimestamp_eq]
  by_cases hb : (detectTimestampByteAnalysis file).1 = true
  · rw [if_pos hb]
    constructor
    · intro h
      simp at h
    · intro _
      exact ⟨htype hb, rfl⟩
  · rw [if_neg hb]
    constructor
    · intro _
      exact ⟨rfl, rfl, rfl, rfl⟩
    · intro h
      simp at h

/-- Witness for C9 at a concrete input: a failing file read leaves the
record in the absent state. -/
theorem C9_witness :
    (analyzeTimestamp none {}).timestampType = "" ∧
    (analyzeTimestamp none {}).timestampTime = "" ∧
    (analyzeTimestamp none {}).timestampAuthority = "" ∧
    (analyzeTimestamp none {}).timestampStatus = "None" :=
  (C9_timestamp_record_invariant none {}).1 rfl

/-! ## Claim C10 -/

theorem buildSignatureInfo_timestamp_eq (file : Option (List Char))
    (r₁ r₂ : SignatureValidationResult) :
    (buildSignatureInfo file r₁).hasTimestamp =
        (buildSignatureInfo file r₂).hasTimestamp ∧
    (buildSignatureInfo file r₁).timestampType =
        (buildSignatureInfo file r₂).timestampType ∧
    (buildSignatureInfo file r₁).timestampTime =
        (buildSignatureInfo file r₂).timestampTime ∧
    (buildSignatureInfo file r₁).timestampAuthority =
        (buildSignatureInfo file r₂).timestampAuthority ∧
    (buildSignatureInfo file r₁).timestampStatus =
        (buildSignatureInfo file r₂).timestampStatus := by
  unfold buildSignatureInfo analyzeTimestamp
  rcases hd : detectTimestampByteAnalysis file with ⟨b, ti⟩
  cases b <;> simp [hd]

/-- C10: within one analysis of a single file, whenever validation yields
two or more records, every record of the signature list carries one and the
same timestamp verdict: the five timestamp fields agree between any two
members of the list. -/
theorem C10_records_share_timestamp (file : Option (List Char))
    (ctx : Option Context) (results : List SignatureValidationResult)
    (info : PDFInfo) (s₁ s₂ : DigitalSignatureInfo)
    (hlen : 2 ≤ results.length)
    (h₁ : s₁ ∈ (analyzeDigitalSignatures file ctx (.ok results) info).signatures)
    (h₂ : s₂ ∈ (analyzeDigitalSignatures file ctx (.ok results) info).signatures) :
    s₁.hasTimestamp = s₂.hasTimestamp ∧
    s₁.timestampType = s₂.timestampType ∧
    s₁.timestampTime = s₂.timestampTime ∧
    s₁.timestampAuthority = s₂.timestampAuthority ∧
    s₁.timestampStatus = s₂.timestampStatus := by
  cases results with
  | nil => simp at hlen
  | cons r rs =>
    simp only [analyzeDigitalSignatures] at h₁ h₂
    simp only [List.length_cons] at h₁ h₂
    rw [if_neg (by simp)] at h₁ h₂
    simp only [List.mem_map] at h₁ h₂
    obtain ⟨r₁, _, hr₁⟩ := h₁
    obtain ⟨r₂, _, hr₂⟩ := h₂
    subst hr₁
    subst hr₂
    exact buildSignatureInfo_timestamp_eq file r₁ r₂

/-- Witness for C10 at a concrete input: two validation results for the
same (unreadable) file produce records with identical timestamp fields. -/
theorem C10_witness :
    (buildSignatureInfo none {}).hasTimestamp =
        (buildSignatureInfo none { fieldName := "b" }).hasTimestamp ∧
    (buildSignatureInfo none {}).timestampType =
        (buildSignatureInfo none { fieldName := "b" }).timestampType ∧
    (buildSignatureInfo none {}).timestampTime =
        (buildSignatureInfo none { fieldName := "b" }).timestampTime ∧
    (buildSignatureInfo none {}).timestampAuthority =
        (buildSignatureInfo none { fieldName := "b" }).timestampAuthority ∧
    (buildSignatureInfo none {}).timestampStatus =
        (buildSignatureInfo none { fieldName := "b" }).timestampStatus :=
  C10_records_share_timestamp none none [{}, { fieldName := "b" }] {}
    (buildSignatureInfo none {}) (buildSignatureInfo none { fieldName := "b" })
    (by decide) (by decide) (by decide)

end PdfInfo
